import Mathlib

/-!
Verification model of the ai-coo-analyze pricing-recommendation pipeline
(`src/lambda-function.py`).

The embedding is shallow: pandas DataFrame cells are modelled by `Cell`
(a missing value `nan`, a numeric value, or a raw string), floating-point
values by `RFloat := Option ℚ` where `none` plays the role of IEEE NaN
(arithmetic is exact rational arithmetic; infinities are outside the
numeric domain of the model), and fallible Python code by
`Except String`.  The two input CSV files become lists of typed rows
whose fields are the columns the code reads after header normalization.
-/

set_option autoImplicit false
set_option maxRecDepth 8000

/-- Decidable equality for `Except`, by cases (kept reduction-friendly). -/
instance exceptDecEq {ε α : Type} [DecidableEq ε] [DecidableEq α] : DecidableEq (Except ε α) := fun a b =>
  match a, b with
  | Except.error x, Except.error y =>
    if h : x = y then Decidable.isTrue (by rw [h]) else Decidable.isFalse (fun hc => h (by cases hc; rfl))
  | Except.ok x, Except.ok y =>
    if h : x = y then Decidable.isTrue (by rw [h]) else Decidable.isFalse (fun hc => h (by cases hc; rfl))
  | Except.error _, Except.ok _ => Decidable.isFalse (fun hc => by cases hc)
  | Except.ok _, Except.error _ => Decidable.isFalse (fun hc => by cases hc)

/-- Model of a Python float value: `none` is NaN, `some q` a finite value
(exact rational arithmetic stands in for IEEE arithmetic). -/
abbrev RFloat := Option ℚ

/-- Float division; division by zero and NaN operands give NaN. -/
def rdiv : RFloat → RFloat → RFloat
  | some a, some b => if b = 0 then none else some (a / b)
  | _, _ => none

/-- Float multiplication; NaN propagates. -/
def rmul : RFloat → RFloat → RFloat
  | some a, some b => some (a * b)
  | _, _ => none

/-- Float subtraction; NaN propagates. -/
def rsub : RFloat → RFloat → RFloat
  | some a, some b => some (a - b)
  | _, _ => none

/-- The comparison `x > c` on floats: any comparison with NaN is false. -/
def rgtB (x : RFloat) (c : ℚ) : Bool :=
  match x with
  | none => false
  | some a => decide (c < a)

/-- Python `int(x)` truncation of a finite float toward zero. -/
def pyIntTrunc (q : ℚ) : ℤ :=
  if 0 ≤ q then ⌊q⌋ else ⌈q⌉

/-- Round to the nearest integer, ties to even (the rounding used by
Python `round`). -/
def roundHalfEven (q : ℚ) : ℤ :=
  let f : ℤ := ⌊q⌋
  let r : ℚ := q - f
  if r < 1/2 then f
  else if 1/2 < r then f + 1
  else if f % 2 = 0 then f else f + 1

/-- Python `round(q, n)` on a finite value. -/
def roundQ (n : ℕ) (q : ℚ) : ℚ :=
  (roundHalfEven (q * (10 : ℚ) ^ n) : ℚ) / (10 : ℚ) ^ n

/-- Python `round(x, n)`; `round(nan, n)` is NaN. -/
def roundRF (n : ℕ) : RFloat → RFloat
  | none => none
  | some q => some (roundQ n q)

/-- One pandas DataFrame cell: missing (NaN), numeric, or a raw string. -/
inductive Cell where
  | nan : Cell
  | num : ℚ → Cell
  | str : String → Cell
deriving DecidableEq, Repr

/-- Numeric value of a list of decimal digit characters. -/
def digitsToNat (cs : List Char) : ℕ :=
  cs.foldl (fun a c => 10 * a + (c.toNat - 48)) 0

/-- Ten to an integer power, as an exact rational. -/
def tenPowQ : ℤ → ℚ
  | Int.ofNat n => ((10 : ℕ) ^ n : ℕ)
  | Int.negSucc n => 1 / ((10 : ℚ) ^ (n + 1))

/-- Strip leading and trailing whitespace from a character list. -/
def trimChars (cs : List Char) : List Char :=
  ((cs.dropWhile Char.isWhitespace).reverse.dropWhile Char.isWhitespace).reverse

/-- Parse the exponent part of a float literal (after the `e`):
an optional sign followed by at least one digit, consuming everything. -/
def parseExpPart (cs : List Char) : Option ℤ :=
  let sr : ℤ × List Char :=
    match cs with
    | '+' :: r => (1, r)
    | '-' :: r => (-1, r)
    | r => (1, r)
  let ds := sr.2.takeWhile Char.isDigit
  let rest := sr.2.dropWhile Char.isDigit
  if ds.isEmpty ∨ ¬ rest.isEmpty then none
  else some (sr.1 * (digitsToNat ds : ℤ))

/-- Parse an unsigned decimal float literal: digits, an optional point
with digits, and an optional exponent, as in Python `float`. -/
def parseDecimalChars (cs : List Char) : Option ℚ :=
  let ip := cs.takeWhile Char.isDigit
  let r1 := cs.dropWhile Char.isDigit
  match r1 with
  | [] => if ip.isEmpty then none else some (digitsToNat ip : ℚ)
  | c :: rest =>
    if c = '.' then
      let fp := rest.takeWhile Char.isDigit
      let r2 := rest.dropWhile Char.isDigit
      if ip.isEmpty ∧ fp.isEmpty then none
      else
        let mant : ℚ := (digitsToNat ip : ℚ) + (digitsToNat fp : ℚ) / (10 : ℚ) ^ fp.length
        match r2 with
        | [] => some mant
        | e :: r3 =>
          if e = 'e' ∨ e = 'E' then (parseExpPart r3).map (fun ex => mant * tenPowQ ex)
          else none
    else if c = 'e' ∨ c = 'E' then
      if ip.isEmpty then none
      else (parseExpPart rest).map (fun ex => (digitsToNat ip : ℚ) * tenPowQ ex)
    else none

/-- Python `float(s)` on an already-trimmed character list: an optional
sign, then either a decimal literal or the NaN literal. -/
def pyFloatChars (cs : List Char) : Option RFloat :=
  let sgn : ℚ := if cs.head? = some '-' then -1 else 1
  let r : List Char :=
    if cs.head? = some '+' ∨ cs.head? = some '-' then cs.tail else cs
  if r.map Char.toLower = [ 'n', 'a', 'n' ] then some none
  else (parseDecimalChars r).map (fun q => some (sgn * q))

/-- Python `float(s)`: `none` means the call raises ValueError, `some v`
a successful parse (`v` may be NaN for the literal "nan"). -/
def pyFloat (s : String) : Option RFloat :=
  pyFloatChars (trimChars s.toList)

/-- Python `int(s)` on a string: optional sign and at least one digit
after stripping whitespace; anything else raises ValueError. -/
def pyIntOfStr (s : String) : Except String ℤ :=
  let cs := trimChars s.toList
  let sr : ℤ × List Char :=
    match cs with
    | '+' :: r => (1, r)
    | '-' :: r => (-1, r)
    | r => (1, r)
  if sr.2.isEmpty ∨ ¬ (sr.2.all Char.isDigit) then
    Except.error "invalid literal for int with base 10"
  else Except.ok (sr.1 * (digitsToNat sr.2 : ℤ))

/-- Rendering of a numeric cell as text (stand-in for Python float repr;
only its determinism matters to the development). -/
def ratStr (q : ℚ) : String :=
  if q.den = 1 then toString q.num ++ ".0" else toString q

/-- Python `str(cell)`, as applied by the code to cell values. -/
def cellStr : Cell → String
  | Cell.nan => "nan"
  | Cell.num q => ratStr q
  | Cell.str s => s

/-- One row of the inventory CSV after header normalization: the join key
and the two optional columns the code reads (`none` = column absent from
the file, `some c` = the cell in that column). -/
structure InvRow where
  sku : String
  available : Option Cell
  productName : Option Cell
deriving DecidableEq, Repr

/-- One row of the sales CSV after header normalization. -/
structure SalesRow where
  sku : String
  orderedProductSales : Cell
  unitsOrdered : Cell
deriving DecidableEq, Repr

/-- The pandas inner merge `inventory.merge(sales, on="sku", how="inner")`:
for every inventory row, in order, all sales rows with the same sku. -/
def mergeOnSku (inv : List InvRow) (sales : List SalesRow) : List (InvRow × SalesRow) :=
  inv.flatMap (fun i => (sales.filter (fun s => s.sku == i.sku)).map (fun s => (i, s)))

/-- Removal of all dollar signs and commas, the regex replace
`.replace("[\$,]", "", regex=True)` applied to each cell string. -/
def stripMoney (s : String) : String :=
  String.mk (s.toList.filter (fun c => ¬ (c = '$' ∨ c = ',')))

/-- The cleaning of one `ordered product sales` cell:
`astype(str)` then the money-character strip then `astype(float)`.
A missing cell becomes the string "nan" which parses to NaN; a string
cell that does not parse raises, which is fatal for the run. -/
def salesFloat : Cell → Except String RFloat
  | Cell.nan => Except.ok none
  | Cell.num q => Except.ok (some q)
  | Cell.str s =>
    match pyFloat (stripMoney s) with
    | some v => Except.ok v
    | none => Except.error ( "could not convert string to float: " ++ stripMoney s)

/-- The cleaning of one `units ordered` cell:
`pd.to_numeric(..., errors="coerce").fillna(0)` — numeric cells pass
through, unparseable or missing cells silently become 0. -/
def unitsCoerce : Cell → ℚ
  | Cell.nan => 0
  | Cell.num q => q
  | Cell.str s =>
    match pyFloat s with
    | some (some q) => q
    | _ => 0

/-- `df["units ordered"].replace(0, 1)`, the division-by-zero guard. -/
def safeUnits (u : ℚ) : ℚ :=
  if u = 0 then 1 else u

/-- `price_per_unit = ordered_product_sales / safe_units`. -/
def pricePerUnit (s : RFloat) (u : ℚ) : RFloat :=
  rdiv s (some (safeUnits u))

/-- `gross_profit_unit = price_per_unit - price_per_unit * cost_price_factor`. -/
def grossProfitUnit (price : RFloat) (cpf : ℚ) : RFloat :=
  rsub price (rmul price (some cpf))

/-- `int(r.get("available", 0))`: 0 when the column is absent, truncation
for a numeric cell, integer parsing for a string cell; a missing cell
(NaN) or a non-integer string raises, which is fatal for the run. -/
def availInt : Option Cell → Except String ℤ
  | none => Except.ok 0
  | some Cell.nan => Except.error "cannot convert float NaN to integer"
  | some (Cell.num q) => Except.ok (pyIntTrunc q)
  | some (Cell.str s) => pyIntOfStr s

/-- `str(r.get("product-name", ""))[:400]`. -/
def productNameStr (r : InvRow) : String :=
  String.mk ((match r.productName with
    | none => ""
    | some c => cellStr c).toList.take 400)

/-- The classification outcome of one row: the five fields determined by
the matching rule. -/
structure Outcome where
  strategy : String
  price_action : String
  price_change_pct : ℚ
  ad_action : String
  reason : String
deriving DecidableEq, Repr

/-- The default outcome when no rule matches. -/
def defaultOutcome : Outcome :=
  ⟨ "hold", "none", 0, "none", "Default hold – no strong inventory or margin signal"⟩

/-- Rule 1 outcome: clear inventory. -/
def outcome1 : Outcome :=
  ⟨ "clear_inventory", "drop", -1/10, "boost_low", "High inventory, low recent sales, healthy unit margin"⟩

/-- Rule 2 outcome: stimulate demand. -/
def outcome2 : Outcome :=
  ⟨ "stimulate_demand", "drop", -1/20, "none", "Moderate inventory, low sales; small price drop to test elasticity"⟩

/-- Rule 3 outcome: premium position. -/
def outcome3 : Outcome :=
  ⟨ "premium_position", "increase", 1/20, "none", "Low inventory and strong margin; small price increase justified"⟩

/-- Rule 4 outcome: hold with ad boost. -/
def outcome4 : Outcome :=
  ⟨ "hold", "none", 0, "boost_low", "Balanced inventory and demand; consider slight ad boost to scale hero SKU"⟩

/-- Rule 1 condition: `available >= 80 and units <= 5 and gppu > 3`. -/
def rule1Cond (a u : ℤ) (g : RFloat) : Bool :=
  decide (80 ≤ a) && decide (u ≤ 5) && rgtB g 3

/-- Rule 2 condition: `30 <= available < 80 and units <= 5 and gppu > 2`. -/
def rule2Cond (a u : ℤ) (g : RFloat) : Bool :=
  decide (30 ≤ a) && decide (a < 80) && decide (u ≤ 5) && rgtB g 2

/-- Rule 3 condition: `available < 20 and gppu > 5 and units > 0`. -/
def rule3Cond (a u : ℤ) (g : RFloat) : Bool :=
  decide (a < 20) && rgtB g 5 && decide (0 < u)

/-- Rule 4 condition: `40 <= available <= 100 and units >= 10 and gppu > 2`. -/
def rule4Cond (a u : ℤ) (g : RFloat) : Bool :=
  decide (40 ≤ a) && decide (a ≤ 100) && decide (10 ≤ u) && rgtB g 2

/-- The rule engine: the `if`/`elif` chain of the source, evaluated on
the integer `available`, the truncated integer units, and the gross
profit per unit. -/
def classify (a u : ℤ) (g : RFloat) : Outcome :=
  if rule1Cond a u g then outcome1
  else if rule2Cond a u g then outcome2
  else if rule3Cond a u g then outcome3
  else if rule4Cond a u g then outcome4
  else defaultOutcome

/-- One persisted and returned recommendation record. -/
structure Recommendation where
  run_id : String
  sku : String
  product_name : String
  available : ℤ
  units_ordered : ℤ
  current_price : RFloat
  gross_profit_unit : RFloat
  strategy : String
  price_action : String
  price_change_pct : ℚ
  ad_action : String
  reason : String
  created_at : String
deriving DecidableEq, Repr

/-- The loop body of `compute_recommendations` for one merged row whose
sales cell already parsed to `v`: compute the integer fields, the
metrics, classify, and build the record. Only the `available`
conversion can raise here. -/
def mkRec (cpf : ℚ) (run_id created_at : String) (p : InvRow × SalesRow) (v : RFloat) :
    Except String Recommendation :=
  match availInt p.1.available with
  | Except.error e => Except.error e
  | Except.ok a =>
    let u := unitsCoerce p.2.unitsOrdered
    let price := pricePerUnit v u
    let g := grossProfitUnit price cpf
    let o := classify a (pyIntTrunc u) g
    Except.ok
      { run_id := run_id
        sku := p.1.sku
        product_name := productNameStr p.1
        available := a
        units_ordered := pyIntTrunc u
        current_price := roundRF 2 price
        gross_profit_unit := roundRF 2 g
        strategy := o.strategy
        price_action := o.price_action
        price_change_pct := roundQ 3 o.price_change_pct
        ad_action := o.ad_action
        reason := o.reason
        created_at := created_at }

/-- The frame-level cleaning of the `ordered product sales` column: the
whole column is parsed before any row is processed, and the first
failure aborts the run. -/
def parseSalesCol : List (InvRow × SalesRow) → Except String (List ((InvRow × SalesRow) × RFloat))
  | [] => Except.ok []
  | p :: rest =>
    match salesFloat p.2.orderedProductSales with
    | Except.error e => Except.error e
    | Except.ok v =>
      match parseSalesCol rest with
      | Except.error e => Except.error e
      | Except.ok tail => Except.ok ((p, v) :: tail)

/-- The row loop: build one record per merged row, in order, stopping at
the first error. `i` indexes the per-record creation timestamp. -/
def buildRecs (cpf : ℚ) (run_id : String) (created : ℕ → String) :
    ℕ → List ((InvRow × SalesRow) × RFloat) → Except String (List Recommendation)
  | _, [] => Except.ok []
  | i, x :: rest =>
    match mkRec cpf run_id (created i) x.1 x.2 with
    | Except.error e => Except.error e
    | Except.ok r =>
      match buildRecs cpf run_id created (i + 1) rest with
      | Except.error e => Except.error e
      | Except.ok tail => Except.ok (r :: tail)

/-- `compute_recommendations`: merge the two datasets on sku, clean the
sales column, then build one recommendation per merged row. `run_id` is
the run timestamp and `created` the per-record write timestamps. -/
def compute_recommendations (inv : List InvRow) (sales : List SalesRow) (cpf : ℚ)
    (run_id : String) (created : ℕ → String) : Except String (List Recommendation) :=
  match parseSalesCol (mergeOnSku inv sales) with
  | Except.error e => Except.error e
  | Except.ok parsed => buildRecs cpf run_id created 0 parsed

/-- The structured request payload: the three fields the handler reads,
each possibly absent. -/
structure Payload where
  inventory_s3_key : Option String
  sales_s3_key : Option String
  cost_price_factor : Option ℚ

/-- The value of an event's `body` key: either a JSON string (represented
by the payload it decodes to, or the decoding error — an empty string
stands for the decoded empty object) or an already-structured payload. -/
inductive BodyVal where
  | jsonStr : Except String Payload → BodyVal
  | obj : Payload → BodyVal

/-- An invocation event: the `httpMethod` key (`none` = key absent,
`some none` = key present but null), the `body` key, and the payload
fields read from the top level of the event when the code uses the
event itself as the body. -/
structure Event where
  httpMethod : Option (Option String)
  body : Option BodyVal
  topPayload : Payload

/-- `event.get("httpMethod")`. -/
def httpMethodGet (e : Event) : Option String :=
  e.httpMethod.bind id

/-- The Python test `"httpMethod" in event`. -/
def hasHttpMethodKey (e : Event) : Bool :=
  e.httpMethod.isSome

/-- The successful response `{run_id, sku_count, recommendations}`. -/
structure Resp where
  run_id : String
  sku_count : ℕ
  recommendations : List Recommendation
deriving DecidableEq

/-- What the handler returns to its caller: a gateway-wrapped success
(`statusCode` 200, JSON body), an unwrapped direct response, a
gateway-wrapped error (`statusCode` 500, body the JSON object with the
error text), or a re-raised exception. -/
inductive HandlerResult where
  | gatewayOk : ℕ → Resp → HandlerResult
  | directOk : Resp → HandlerResult
  | gatewayErr : ℕ → String → HandlerResult
  | raised : String → HandlerResult
deriving DecidableEq

/-- The injected blob-storage collaborator: each key either yields the
rows of a CSV file or raises. -/
structure Stores where
  invTable : String → Except String (List InvRow)
  salesTable : String → Except String (List SalesRow)

/-- The body-selection branch of `lambda_handler`: when
`event.get("httpMethod") in ("POST", None)` the body key is used
(a string body is JSON-decoded), otherwise the event itself.  The
result is the Python value bound to `body` (`none` = Python None). -/
def resolvePayload (e : Event) : Except String (Option Payload) :=
  if httpMethodGet e = some "POST" ∨ httpMethodGet e = none then
    match e.body with
    | none => Except.ok none
    | some (BodyVal.obj p) => Except.ok (some p)
    | some (BodyVal.jsonStr r) =>
      match r with
      | Except.error err => Except.error err
      | Except.ok p => Except.ok (some p)
  else
    Except.ok (some e.topPayload)

/-- The body of the `try` block of `lambda_handler`: select the payload,
read the two required keys, default the cost factor, load both CSV
files, compute the recommendations, and shape the response. -/
def handlerRun (st : Stores) (now : String) (created : ℕ → String) (e : Event) :
    Except String Resp :=
  match resolvePayload e with
  | Except.error err => Except.error err
  | Except.ok none => Except.error "TypeError: NoneType object is not subscriptable"
  | Except.ok (some p) =>
    match p.inventory_s3_key with
    | none => Except.error "KeyError: inventory_s3_key"
    | some invKey =>
      match p.sales_s3_key with
      | none => Except.error "KeyError: sales_s3_key"
      | some salesKey =>
        let cf := p.cost_price_factor.getD (33/100)
        match st.invTable invKey with
        | Except.error err => Except.error err
        | Except.ok invRows =>
          match st.salesTable salesKey with
          | Except.error err => Except.error err
          | Except.ok salesRows =>
            match compute_recommendations invRows salesRows cf now created with
            | Except.error err => Except.error err
            | Except.ok recs => Except.ok ⟨now, recs.length, recs⟩

/-- `lambda_handler`: run the pipeline; on success wrap as a 200 gateway
response when the event has an `httpMethod` key, else return the
response unwrapped; on any error wrap as a 500 gateway response when
the event has an `httpMethod` key, else re-raise. -/
def lambda_handler (st : Stores) (now : String) (created : ℕ → String) (e : Event) :
    HandlerResult :=
  match handlerRun st now created e with
  | Except.ok resp =>
    if hasHttpMethodKey e then HandlerResult.gatewayOk 200 resp else HandlerResult.directOk resp
  | Except.error msg =>
    if hasHttpMethodKey e then HandlerResult.gatewayErr 500 msg else HandlerResult.raised msg

/-- The ordered rule table of spec section 4.4, for the refinement
statement of the rule engine: the pairs (condition, outcome) of rules
1 to 4 in order. -/
def specRuleTable : List ((ℤ → ℤ → RFloat → Bool) × Outcome) :=
  [(rule1Cond, outcome1), (rule2Cond, outcome2), (rule3Cond, outcome3), (rule4Cond, outcome4)]

/-- Modelled from the spec: evaluate an ordered rule list, first match
wins, default if none match (spec section 4.4 contract). -/
def specFirstMatch : List ((ℤ → ℤ → RFloat → Bool) × Outcome) → ℤ → ℤ → RFloat → Outcome
  | [], _, _, _ => defaultOutcome
  | r :: rest, a, u, g => if r.1 a u g then r.2 else specFirstMatch rest a u g

/-- Every field of a recommendation except `run_id` and `created_at`,
for the determinism statement. -/
def coreFields (r : Recommendation) :
    String × String × ℤ × ℤ × RFloat × RFloat × String × String × ℚ × String × String :=
  (r.sku, r.product_name, r.available, r.units_ordered, r.current_price,
   r.gross_profit_unit, r.strategy, r.price_action, r.price_change_pct,
   r.ad_action, r.reason)

/-- A fixed per-record timestamp function for concrete runs. -/
def ts0 : ℕ → String := fun _ => "t"

/-- A concrete storage double whose every key holds an empty file. -/
def emptyStores : Stores :=
  ⟨ fun _ => Except.ok [], fun _ => Except.ok []⟩

/-- Membership in the merged frame: exactly the pairs of an inventory row
and a sales row with the same sku. -/
theorem mem_mergeOnSku {inv : List InvRow} {sales : List SalesRow} {p : InvRow × SalesRow} :
    p ∈ mergeOnSku inv sales ↔ p.1 ∈ inv ∧ p.2 ∈ sales ∧ p.2.sku = p.1.sku := by
  cases p with
  | mk i s =>
    simp only [mergeOnSku, List.mem_flatMap, List.mem_map, List.mem_filter, beq_iff_eq]
    constructor
    · rintro ⟨a, ha, b, ⟨hb, hsku⟩, heq⟩
      cases heq
      exact ⟨ha, hb, hsku⟩
    · rintro ⟨hi, hs, hsku⟩
      exact ⟨i, hi, s, ⟨hs, hsku⟩, rfl⟩

/-- The five possible outcomes of the rule engine. -/
theorem classify_cases (a u : ℤ) (g : RFloat) :
    classify a u g = outcome1 ∨ classify a u g = outcome2 ∨ classify a u g = outcome3 ∨
    classify a u g = outcome4 ∨ classify a u g = defaultOutcome := by
  unfold classify
  split_ifs <;> simp

/-- C1: the rule engine is the first-match evaluation of the ordered rule
table of section 4.4; a row satisfying rule 1 (in particular one also
satisfying rule 4, though the two conditions are incompatible) gets rule
1's outcome, and a row matching no rule gets the default hold outcome. -/
theorem claim_C1 (a u : ℤ) (g : RFloat) :
    classify a u g = specFirstMatch specRuleTable a u g ∧
    (rule1Cond a u g = true → classify a u g = outcome1) ∧
    (rule1Cond a u g = true ∧ rule4Cond a u g = true → classify a u g = outcome1) ∧
    ((rule1Cond a u g || rule2Cond a u g || rule3Cond a u g || rule4Cond a u g) = false →
      classify a u g = defaultOutcome) := by
  refine ⟨rfl, fun h => by simp [classify, h], fun h => by simp [classify, h.1], fun h => ?_⟩
  simp only [Bool.or_eq_false_iff] at h
  simp [classify, h.1.1.1, h.1.1.2, h.1.2, h.2]

/-- Witness for C1 at concrete inputs: a rule-1 row and a no-rule row. -/
theorem claim_C1_witness :
    rule1Cond 90 2 (some 5) = true ∧ classify 90 2 (some 5) = outcome1 ∧
    (rule1Cond 7 0 none || rule2Cond 7 0 none || rule3Cond 7 0 none || rule4Cond 7 0 none) = false ∧
    classify 7 0 none = defaultOutcome :=
  ⟨ by with_unfolding_all decide,
    (claim_C1 90 2 (some 5)).2.1 (by with_unfolding_all decide),
    by with_unfolding_all decide,
    (claim_C1 7 0 none).2.2.2 (by with_unfolding_all decide)⟩

/-- Inversion of the loop body: a produced record is fully determined by
the row, the parsed sales value, the cost factor and the timestamps. -/
theorem mkRec_ok_inv {cpf : ℚ} {rid ca : String} {p : InvRow × SalesRow} {v : RFloat}
    {r : Recommendation} (h : mkRec cpf rid ca p v = Except.ok r) :
    ∃ a, availInt p.1.available = Except.ok a ∧
      r = ⟨ rid, p.1.sku, productNameStr p.1, a,
            pyIntTrunc (unitsCoerce p.2.unitsOrdered),
            roundRF 2 (pricePerUnit v (unitsCoerce p.2.unitsOrdered)),
            roundRF 2 (grossProfitUnit (pricePerUnit v (unitsCoerce p.2.unitsOrdered)) cpf),
            (classify a (pyIntTrunc (unitsCoerce p.2.unitsOrdered))
              (grossProfitUnit (pricePerUnit v (unitsCoerce p.2.unitsOrdered)) cpf)).strategy,
            (classify a (pyIntTrunc (unitsCoerce p.2.unitsOrdered))
              (grossProfitUnit (pricePerUnit v (unitsCoerce p.2.unitsOrdered)) cpf)).price_action,
            roundQ 3 (classify a (pyIntTrunc (unitsCoerce p.2.unitsOrdered))
              (grossProfitUnit (pricePerUnit v (unitsCoerce p.2.unitsOrdered)) cpf)).price_change_pct,
            (classify a (pyIntTrunc (unitsCoerce p.2.unitsOrdered))
              (grossProfitUnit (pricePerUnit v (unitsCoerce p.2.unitsOrdered)) cpf)).ad_action,
            (classify a (pyIntTrunc (unitsCoerce p.2.unitsOrdered))
              (grossProfitUnit (pricePerUnit v (unitsCoerce p.2.unitsOrdered)) cpf)).reason,
            ca⟩ := by
  rw [mkRec] at h
  cases ha : availInt p.1.available with
  | error e => rw [ha] at h; cases h
  | ok a =>
    rw [ha] at h
    exact ⟨a, rfl, (Except.ok.inj h).symm⟩

/-- The frame-level sales parse keeps rows in place: every parsed pair
comes from the frame with a successful parse of its own cell. -/
theorem parseSalesCol_mem {df : List (InvRow × SalesRow)}
    {parsed : List ((InvRow × SalesRow) × RFloat)}
    (h : parseSalesCol df = Except.ok parsed) :
    ∀ {x}, x ∈ parsed → x.1 ∈ df ∧ salesFloat x.1.2.orderedProductSales = Except.ok x.2 := by
  induction df generalizing parsed with
  | nil =>
    rw [parseSalesCol] at h
    cases h
    intro x hx
    cases hx
  | cons p rest ih =>
    intro x hx
    rw [parseSalesCol] at h
    cases hs : salesFloat p.2.orderedProductSales with
    | error e => rw [hs] at h; cases h
    | ok v =>
      rw [hs] at h
      cases ht : parseSalesCol rest with
      | error e => rw [ht] at h; cases h
      | ok tail =>
        rw [ht] at h
        cases h
        cases hx with
        | head => exact ⟨List.mem_cons_self _ _, hs⟩
        | tail _ hx2 =>
          obtain ⟨h1, h2⟩ := ih ht hx2
          exact ⟨List.mem_cons_of_mem _ h1, h2⟩

/-- A single unparseable sales cell anywhere in the frame makes the
frame-level parse fail. -/
theorem parseSalesCol_error {df : List (InvRow × SalesRow)}
    (h : ∃ p, p ∈ df ∧ ∃ e, salesFloat p.2.orderedProductSales = Except.error e) :
    ∃ e, parseSalesCol df = Except.error e := by
  induction df with
  | nil => obtain ⟨p, hp, _⟩ := h; cases hp
  | cons q rest ih =>
    rw [parseSalesCol]
    cases hs : salesFloat q.2.orderedProductSales with
    | error e => exact ⟨e, rfl⟩
    | ok v =>
      obtain ⟨p, hp, e, he⟩ := h
      cases hp with
      | head => rw [hs] at he; cases he
      | tail _ hp2 =>
        obtain ⟨e2, he2⟩ := ih ⟨p, hp2, e, he⟩
        rw [he2]
        exact ⟨e2, rfl⟩

/-- Every record returned by the row loop comes from one of its input
pairs via the loop body. -/
theorem buildRecs_mem {cpf : ℚ} {rid : String} {created : ℕ → String}
    {l : List ((InvRow × SalesRow) × RFloat)} {i : ℕ} {recs : List Recommendation}
    (h : buildRecs cpf rid created i l = Except.ok recs) :
    ∀ {r}, r ∈ recs → ∃ x j, x ∈ l ∧ mkRec cpf rid (created j) x.1 x.2 = Except.ok r := by
  induction l generalizing i recs with
  | nil =>
    rw [buildRecs] at h
    cases h
    intro r hr
    cases hr
  | cons x rest ih =>
    intro r hr
    rw [buildRecs] at h
    cases hm : mkRec cpf rid (created i) x.1 x.2 with
    | error e => rw [hm] at h; cases h
    | ok r1 =>
      rw [hm] at h
      cases ht : buildRecs cpf rid created (i + 1) rest with
      | error e => rw [ht] at h; cases h
      | ok tail =>
        rw [ht] at h
        cases h
        cases hr with
        | head => exact ⟨x, i, List.mem_cons_self _ _, hm⟩
        | tail _ hr2 =>
          obtain ⟨y, j, hy, hmk⟩ := ih ht hr2
          exact ⟨y, j, List.mem_cons_of_mem _ hy, hmk⟩

/-- C2: price_per_unit is the sales value divided by units_ordered when
the coerced units are nonzero, and the sales value itself when they are
zero (safe_units guard), while the emitted record still reports
units_ordered 0, not 1, in that case. -/
theorem claim_C2 (s : RFloat) (u : ℚ) (cpf : ℚ) (rid ca : String)
    (p : InvRow × SalesRow) (v : RFloat) (r : Recommendation) :
    (u ≠ 0 → pricePerUnit s u = rdiv s (some u)) ∧
    (u = 0 → pricePerUnit s u = s) ∧
    (unitsCoerce p.2.unitsOrdered = 0 → mkRec cpf rid ca p v = Except.ok r →
      r.units_ordered = 0) := by
  refine ⟨fun h => by simp [pricePerUnit, safeUnits, h], fun h => ?_, fun h0 hm => ?_⟩
  · subst h
    cases s <;> simp [pricePerUnit, safeUnits, rdiv]
  · obtain ⟨a, _, hr⟩ := mkRec_ok_inv hm
    rw [hr]
    simp [h0, pyIntTrunc]

/-- Witness for C2: a nonzero-units row, a zero-units metric, and a full
zero-units record whose units_ordered field is 0. -/
theorem claim_C2_witness :
    pricePerUnit (some 10) 4 = rdiv (some 10) (some 4) ∧
    pricePerUnit (some 10) 0 = some 10 ∧
    (⟨ "rid", "A", "", 50, 0, some 10, some (67/10), "stimulate_demand", "drop", -1/20,
      "none", "Moderate inventory, low sales; small price drop to test elasticity",
      "tc"⟩ : Recommendation).units_ordered = 0 :=
  ⟨ (claim_C2 (some 10) 4 (33/100) "rid" "tc"
      (⟨ "A", some (Cell.num 50), none⟩, ⟨ "A", Cell.str "$10", Cell.num 0⟩) (some 10)
      ⟨ "rid", "A", "", 50, 0, some 10, some (67/10), "stimulate_demand", "drop", -1/20,
        "none", "Moderate inventory, low sales; small price drop to test elasticity",
        "tc"⟩).1 (by with_unfolding_all decide),
    (claim_C2 (some 10) 0 (33/100) "rid" "tc"
      (⟨ "A", some (Cell.num 50), none⟩, ⟨ "A", Cell.str "$10", Cell.num 0⟩) (some 10)
      ⟨ "rid", "A", "", 50, 0, some 10, some (67/10), "stimulate_demand", "drop", -1/20,
        "none", "Moderate inventory, low sales; small price drop to test elasticity",
        "tc"⟩).2.1 rfl,
    (claim_C2 (some 10) 0 (33/100) "rid" "tc"
      (⟨ "A", some (Cell.num 50), none⟩, ⟨ "A", Cell.str "$10", Cell.num 0⟩) (some 10)
      ⟨ "rid", "A", "", 50, 0, some 10, some (67/10), "stimulate_demand", "drop", -1/20,
        "none", "Moderate inventory, low sales; small price drop to test elasticity",
        "tc"⟩).2.2 (by with_unfolding_all decide) (by with_unfolding_all decide)⟩

/-- C3: the sales cell "$1,234.50" parses to 1234.50 after stripping the
dollar sign and comma, and one unparseable sales cell in the merged
frame makes the whole run fail with no recommendation for any row. -/
theorem claim_C3 :
    salesFloat (Cell.str "$1,234.50") = Except.ok (some (2469/2)) ∧
    ∀ (inv : List InvRow) (sales : List SalesRow) (cpf : ℚ) (rid : String)
      (created : ℕ → String),
      (∃ p, p ∈ mergeOnSku inv sales ∧
        ∃ e, salesFloat p.2.orderedProductSales = Except.error e) →
      ∃ e, compute_recommendations inv sales cpf rid created = Except.error e := by
  constructor
  · have h2 : trimChars (stripMoney "$1,234.50").toList = [ '1', '2', '3', '4', '.', '5', '0' ] := by
      with_unfolding_all decide
    have htw : List.takeWhile Char.isDigit [ '1', '2', '3', '4', '.', '5', '0' ] = [ '1', '2', '3', '4' ] := by decide
    have hdw : List.dropWhile Char.isDigit [ '1', '2', '3', '4', '.', '5', '0' ] = [ '.', '5', '0' ] := by decide
    have htw2 : List.takeWhile Char.isDigit [ '5', '0' ] = [ '5', '0' ] := by decide
    have hdw2 : List.dropWhile Char.isDigit [ '5', '0' ] = ([] : List Char) := by decide
    have hd5 : digitsToNat [ '1', '2', '3', '4' ] = 1234 := by decide
    have hd6 : digitsToNat [ '5', '0' ] = 50 := by decide
    have h3 : parseDecimalChars [ '1', '2', '3', '4', '.', '5', '0' ]
        = some ((digitsToNat [ '1', '2', '3', '4' ] : ℚ)
            + (digitsToNat [ '5', '0' ] : ℚ) / (10 : ℚ) ^ ([ '5', '0' ].length)) := by
      rw [parseDecimalChars, htw, hdw]
      norm_num [htw2, hdw2]
    have h6 : pyFloat (stripMoney "$1,234.50") = some (some (2469/2)) := by
      rw [pyFloat, h2, pyFloatChars]
      rw [if_neg (show ¬([ '1', '2', '3', '4', '.', '5', '0' ].head? = some '+' ∨
        [ '1', '2', '3', '4', '.', '5', '0' ].head? = some '-') from by decide)]
      rw [if_neg (show ¬([ '1', '2', '3', '4', '.', '5', '0' ].head? = some '-') from by decide)]
      rw [if_neg (show ¬(List.map Char.toLower [ '1', '2', '3', '4', '.', '5', '0' ] = [ 'n', 'a', 'n' ]) from by decide)]
      rw [h3, hd5, hd6]
      simp only [Option.map]
      norm_num
    have h4 : salesFloat (Cell.str "$1,234.50") =
        match pyFloat (stripMoney "$1,234.50") with
        | some v => Except.ok v
        | none => Except.error ( "could not convert string to float: " ++ stripMoney "$1,234.50") := rfl
    rw [h4, h6]
  · intro inv sales cpf rid created h
    obtain ⟨e, he⟩ := parseSalesCol_error h
    exact ⟨e, by rw [compute_recommendations, he]⟩

/-- Witness for C3: a one-row run whose sales cell is "abc" fails whole. -/
theorem claim_C3_witness :
    (∃ p, p ∈ mergeOnSku [⟨ "A", none, none⟩] [⟨ "A", Cell.str "abc", Cell.num 1⟩] ∧
      ∃ e, salesFloat p.2.orderedProductSales = Except.error e) ∧
    ∃ e, compute_recommendations [⟨ "A", none, none⟩] [⟨ "A", Cell.str "abc", Cell.num 1⟩]
      (33/100) "r" ts0 = Except.error e :=
  ⟨ ⟨ (⟨ "A", none, none⟩, ⟨ "A", Cell.str "abc", Cell.num 1⟩),
      by with_unfolding_all decide,
      "could not convert string to float: abc", by with_unfolding_all decide⟩,
    claim_C3.2 [⟨ "A", none, none⟩] [⟨ "A", Cell.str "abc", Cell.num 1⟩] (33/100) "r" ts0
      ⟨ (⟨ "A", none, none⟩, ⟨ "A", Cell.str "abc", Cell.num 1⟩),
        by with_unfolding_all decide,
        "could not convert string to float: abc", by with_unfolding_all decide⟩⟩

/-- C4 counterexample: a run whose only row has the non-numeric available
cell "n/a" aborts with an error instead of treating the value as 0. -/
theorem claim_C4_cex :
    compute_recommendations [⟨ "A", some (Cell.str "n/a"), none⟩]
      [⟨ "A", Cell.str "$10.00", Cell.num 1⟩] (33/100) "r" ts0
      = Except.error "invalid literal for int with base 10" := by
  with_unfolding_all decide

/-- C4 amended: a missing or unparseable units-ordered cell is silently
coerced to 0 without affecting the run (the row behaves as if the cell
were 0); an absent available column silently defaults to 0; but an
available cell that is missing (NaN) or a non-integer string raises,
aborting the run. -/
theorem claim_C4 (cpf : ℚ) (rid ca : String) (i : InvRow) (s : SalesRow) (v : RFloat)
    (t msg : String) :
    ((s.unitsOrdered = Cell.nan ∨ (∃ u, s.unitsOrdered = Cell.str u ∧ pyFloat u = none) ∨
        (∃ u, s.unitsOrdered = Cell.str u ∧ pyFloat u = some none)) →
      unitsCoerce s.unitsOrdered = 0 ∧
      mkRec cpf rid ca (i, s) v
        = mkRec cpf rid ca (i, ⟨ s.sku, s.orderedProductSales, Cell.num 0⟩) v) ∧
    availInt none = Except.ok 0 ∧
    availInt (some Cell.nan) = Except.error "cannot convert float NaN to integer" ∧
    (pyIntOfStr t = Except.error msg → availInt (some (Cell.str t)) = Except.error msg) := by
  refine ⟨fun h => ?_, rfl, rfl, fun h => h⟩
  have h0 : unitsCoerce s.unitsOrdered = 0 := by
    rcases h with h | ⟨u, hu, hp⟩ | ⟨u, hu, hp⟩
    · rw [h]; rfl
    · rw [hu]; simp [unitsCoerce, hp]
    · rw [hu]; simp [unitsCoerce, hp]
  refine ⟨h0, ?_⟩
  rw [mkRec, mkRec]
  simp only [h0]
  simp only [unitsCoerce]

/-- Witness for C4: an unparseable units cell behaves as 0 in a full
record, and the non-integer available string "n/a" raises. -/
theorem claim_C4_witness :
    unitsCoerce (Cell.str "x2") = 0 ∧
    mkRec (33/100) "r" "t" (⟨ "A", none, none⟩, ⟨ "A", Cell.num 8, Cell.str "x2"⟩) (some 8)
      = mkRec (33/100) "r" "t" (⟨ "A", none, none⟩, ⟨ "A", Cell.num 8, Cell.num 0⟩) (some 8) ∧
    availInt (some (Cell.str "n/a")) = Except.error "invalid literal for int with base 10" :=
  ⟨ ((claim_C4 (33/100) "r" "t" ⟨ "A", none, none⟩ ⟨ "A", Cell.num 8, Cell.str "x2"⟩ (some 8)
      "n/a" "invalid literal for int with base 10").1
      (Or.inr (Or.inl ⟨ "x2", rfl, by with_unfolding_all decide⟩))).1,
    ((claim_C4 (33/100) "r" "t" ⟨ "A", none, none⟩ ⟨ "A", Cell.num 8, Cell.str "x2"⟩ (some 8)
      "n/a" "invalid literal for int with base 10").1
      (Or.inr (Or.inl ⟨ "x2", rfl, by with_unfolding_all decide⟩))).2,
    (claim_C4 (33/100) "r" "t" ⟨ "A", none, none⟩ ⟨ "A", Cell.num 8, Cell.str "x2"⟩ (some 8)
      "n/a" "invalid literal for int with base 10").2.2.2 (by with_unfolding_all decide)⟩

/-- Rounding to three decimals fixes each of the five outcome price
change percentages. -/
theorem roundQ3_outcomes :
    roundQ 3 outcome1.price_change_pct = -1/10 ∧ roundQ 3 outcome2.price_change_pct = -1/20 ∧
    roundQ 3 outcome3.price_change_pct = 1/20 ∧ roundQ 3 outcome4.price_change_pct = 0 ∧
    roundQ 3 defaultOutcome.price_change_pct = 0 := by
  with_unfolding_all decide

/-- C5: every recommendation emitted by a successful run has one of the
five defined (strategy, price_action, ad_action) combinations, and its
price_change_pct is one of -0.10, -0.05, 0.0, 0.05. -/
theorem claim_C5 (inv : List InvRow) (sales : List SalesRow) (cpf : ℚ) (rid : String)
    (created : ℕ → String) (recs : List Recommendation) (r : Recommendation)
    (hok : compute_recommendations inv sales cpf rid created = Except.ok recs)
    (hr : r ∈ recs) :
    ((r.strategy, r.price_action, r.ad_action) = ("clear_inventory", "drop", "boost_low") ∨
     (r.strategy, r.price_action, r.ad_action) = ("stimulate_demand", "drop", "none") ∨
     (r.strategy, r.price_action, r.ad_action) = ("premium_position", "increase", "none") ∨
     (r.strategy, r.price_action, r.ad_action) = ("hold", "none", "boost_low") ∨
     (r.strategy, r.price_action, r.ad_action) = ("hold", "none", "none")) ∧
    (r.price_change_pct = -1/10 ∨ r.price_change_pct = -1/20 ∨ r.price_change_pct = 0 ∨
     r.price_change_pct = 1/20) := by
  rw [compute_recommendations] at hok
  cases hp : parseSalesCol (mergeOnSku inv sales) with
  | error e => rw [hp] at hok; cases hok
  | ok parsed =>
    rw [hp] at hok
    obtain ⟨x, j, hx, hmk⟩ := buildRecs_mem hok hr
    obtain ⟨a, ha, hrec⟩ := mkRec_ok_inv hmk
    subst hrec
    rcases classify_cases a (pyIntTrunc (unitsCoerce x.1.2.unitsOrdered))
        (grossProfitUnit (pricePerUnit x.2 (unitsCoerce x.1.2.unitsOrdered)) cpf) with
      hc | hc | hc | hc | hc
    · rw [hc]
      exact ⟨Or.inl rfl, Or.inl roundQ3_outcomes.1⟩
    · rw [hc]
      exact ⟨Or.inr (Or.inl rfl), Or.inr (Or.inl roundQ3_outcomes.2.1)⟩
    · rw [hc]
      exact ⟨Or.inr (Or.inr (Or.inl rfl)), Or.inr (Or.inr (Or.inr roundQ3_outcomes.2.2.1))⟩
    · rw [hc]
      exact ⟨Or.inr (Or.inr (Or.inr (Or.inl rfl))),
        Or.inr (Or.inr (Or.inl roundQ3_outcomes.2.2.2.1))⟩
    · rw [hc]
      exact ⟨Or.inr (Or.inr (Or.inr (Or.inr rfl))),
        Or.inr (Or.inr (Or.inl roundQ3_outcomes.2.2.2.2))⟩

/-- Witness for C5: the invariant holds of the concrete record produced
by a one-row run. -/
theorem claim_C5_witness :
    (((⟨ "r", "A1", "Widget", 90, 2, some 250, some (335/2), "clear_inventory", "drop", -1/10, "boost_low", "High inventory, low recent sales, healthy unit margin", "t"⟩ : Recommendation).strategy, (⟨ "r", "A1", "Widget", 90, 2, some 250, some (335/2), "clear_inventory", "drop", -1/10, "boost_low", "High inventory, low recent sales, healthy unit margin", "t"⟩ : Recommendation).price_action, (⟨ "r", "A1", "Widget", 90, 2, some 250, some (335/2), "clear_inventory", "drop", -1/10, "boost_low", "High inventory, low recent sales, healthy unit margin", "t"⟩ : Recommendation).ad_action) = ("clear_inventory", "drop", "boost_low") ∨
     ((⟨ "r", "A1", "Widget", 90, 2, some 250, some (335/2), "clear_inventory", "drop", -1/10, "boost_low", "High inventory, low recent sales, healthy unit margin", "t"⟩ : Recommendation).strategy, (⟨ "r", "A1", "Widget", 90, 2, some 250, some (335/2), "clear_inventory", "drop", -1/10, "boost_low", "High inventory, low recent sales, healthy unit margin", "t"⟩ : Recommendation).price_action, (⟨ "r", "A1", "Widget", 90, 2, some 250, some (335/2), "clear_inventory", "drop", -1/10, "boost_low", "High inventory, low recent sales, healthy unit margin", "t"⟩ : Recommendation).ad_action) = ("stimulate_demand", "drop", "none") ∨
     ((⟨ "r", "A1", "Widget", 90, 2, some 250, some (335/2), "clear_inventory", "drop", -1/10, "boost_low", "High inventory, low recent sales, healthy unit margin", "t"⟩ : Recommendation).strategy, (⟨ "r", "A1", "Widget", 90, 2, some 250, some (335/2), "clear_inventory", "drop", -1/10, "boost_low", "High inventory, low recent sales, healthy unit margin", "t"⟩ : Recommendation).price_action, (⟨ "r", "A1", "Widget", 90, 2, some 250, some (335/2), "clear_inventory", "drop", -1/10, "boost_low", "High inventory, low recent sales, healthy unit margin", "t"⟩ : Recommendation).ad_action) = ("premium_position", "increase", "none") ∨
     ((⟨ "r", "A1", "Widget", 90, 2, some 250, some (335/2), "clear_inventory", "drop", -1/10, "boost_low", "High inventory, low recent sales, healthy unit margin", "t"⟩ : Recommendation).strategy, (⟨ "r", "A1", "Widget", 90, 2, some 250, some (335/2), "clear_inventory", "drop", -1/10, "boost_low", "High inventory, low recent sales, healthy unit margin", "t"⟩ : Recommendation).price_action, (⟨ "r", "A1", "Widget", 90, 2, some 250, some (335/2), "clear_inventory", "drop", -1/10, "boost_low", "High inventory, low recent sales, healthy unit margin", "t"⟩ : Recommendation).ad_action) = ("hold", "none", "boost_low") ∨
     ((⟨ "r", "A1", "Widget", 90, 2, some 250, some (335/2), "clear_inventory", "drop", -1/10, "boost_low", "High inventory, low recent sales, healthy unit margin", "t"⟩ : Recommendation).strategy, (⟨ "r", "A1", "Widget", 90, 2, some 250, some (335/2), "clear_inventory", "drop", -1/10, "boost_low", "High inventory, low recent sales, healthy unit margin", "t"⟩ : Recommendation).price_action, (⟨ "r", "A1", "Widget", 90, 2, some 250, some (335/2), "clear_inventory", "drop", -1/10, "boost_low", "High inventory, low recent sales, healthy unit margin", "t"⟩ : Recommendation).ad_action) = ("hold", "none", "none")) ∧
    ((⟨ "r", "A1", "Widget", 90, 2, some 250, some (335/2), "clear_inventory", "drop", -1/10, "boost_low", "High inventory, low recent sales, healthy unit margin", "t"⟩ : Recommendation).price_change_pct = -1/10 ∨ (⟨ "r", "A1", "Widget", 90, 2, some 250, some (335/2), "clear_inventory", "drop", -1/10, "boost_low", "High inventory, low recent sales, healthy unit margin", "t"⟩ : Recommendation).price_change_pct = -1/20 ∨ (⟨ "r", "A1", "Widget", 90, 2, some 250, some (335/2), "clear_inventory", "drop", -1/10, "boost_low", "High inventory, low recent sales, healthy unit margin", "t"⟩ : Recommendation).price_change_pct = 0 ∨ (⟨ "r", "A1", "Widget", 90, 2, some 250, some (335/2), "clear_inventory", "drop", -1/10, "boost_low", "High inventory, low recent sales, healthy unit margin", "t"⟩ : Recommendation).price_change_pct = 1/20) :=
  claim_C5 [⟨ "A1", some (Cell.num 90), some (Cell.str "Widget")⟩]
    [⟨ "A1", Cell.str "$500", Cell.num 2⟩] (33/100) "r" ts0
    [⟨ "r", "A1", "Widget", 90, 2, some 250, some (335/2), "clear_inventory", "drop", -1/10,
      "boost_low", "High inventory, low recent sales, healthy unit margin", "t"⟩]
    ⟨ "r", "A1", "Widget", 90, 2, some 250, some (335/2), "clear_inventory", "drop", -1/10,
      "boost_low", "High inventory, low recent sales, healthy unit margin", "t"⟩
    (by with_unfolding_all decide) (by with_unfolding_all decide)


/-- C6: the join is strictly inner on sku: every recommendation of a
successful run carries a sku present in both input datasets, so a sku
present in only one dataset yields no recommendation at all. -/
theorem claim_C6 (inv : List InvRow) (sales : List SalesRow) (cpf : ℚ) (rid : String)
    (created : ℕ → String) (recs : List Recommendation) (r : Recommendation) (k : String)
    (hok : compute_recommendations inv sales cpf rid created = Except.ok recs)
    (hr : r ∈ recs) :
    ((∃ i, i ∈ inv ∧ InvRow.sku i = r.sku) ∧ (∃ s, s ∈ sales ∧ SalesRow.sku s = r.sku)) ∧
    (((¬ ∃ i, i ∈ inv ∧ InvRow.sku i = k) ∨ (¬ ∃ s, s ∈ sales ∧ SalesRow.sku s = k)) →
      r.sku ≠ k) := by
  rw [compute_recommendations] at hok
  cases hp : parseSalesCol (mergeOnSku inv sales) with
  | error e => rw [hp] at hok; cases hok
  | ok parsed =>
    rw [hp] at hok
    obtain ⟨x, j, hx, hmk⟩ := buildRecs_mem hok hr
    obtain ⟨hxdf, _⟩ := parseSalesCol_mem hp hx
    obtain ⟨hinv, hsales, hsku⟩ := mem_mergeOnSku.mp hxdf
    obtain ⟨a, ha, hrec⟩ := mkRec_ok_inv hmk
    have hrsku : r.sku = x.1.1.sku := by rw [hrec]
    have hmem : (∃ i, i ∈ inv ∧ InvRow.sku i = r.sku) ∧
        (∃ s, s ∈ sales ∧ SalesRow.sku s = r.sku) :=
      ⟨⟨x.1.1, hinv, hrsku.symm⟩, ⟨x.1.2, hsales, by rw [hrsku, hsku]⟩⟩
    refine ⟨hmem, fun hone hk => ?_⟩
    rcases hone with hno | hno
    · exact hno ⟨x.1.1, hinv, by rw [← hk, hrsku]⟩
    · exact hno ⟨x.1.2, hsales, by rw [← hk, hsku, hrsku]⟩

/-- Step-by-step evaluation of the loop body, used to evaluate concrete
rows without one deep reduction. -/
theorem mkRec_eval {cpf : ℚ} {rid ca : String} {p : InvRow × SalesRow} {v : RFloat}
    (a : ℤ) (u : ℚ) (price g : RFloat) (o : Outcome) (cp gp : RFloat) (pc : ℚ)
    (ha : availInt p.1.available = Except.ok a)
    (hu : unitsCoerce p.2.unitsOrdered = u)
    (hprice : pricePerUnit v u = price)
    (hg : grossProfitUnit price cpf = g)
    (ho : classify a (pyIntTrunc u) g = o)
    (hcp : roundRF 2 price = cp)
    (hgp : roundRF 2 g = gp)
    (hpc : roundQ 3 o.price_change_pct = pc) :
    mkRec cpf rid ca p v = Except.ok ⟨ rid, p.1.sku, productNameStr p.1, a, pyIntTrunc u,
      cp, gp, o.strategy, o.price_action, pc, o.ad_action, o.reason, ca⟩ := by
  rw [mkRec, ha]
  simp only [hu, hprice, hg, ho, hcp, hgp, hpc]

/-- The rule engine on a row matching rule 1. -/
theorem classify_rule1 {a u : ℤ} {g : RFloat} (h : rule1Cond a u g = true) :
    classify a u g = outcome1 := by
  simp [classify, h]

/-- The rule engine on a row first matching rule 2. -/
theorem classify_rule2 {a u : ℤ} {g : RFloat} (h1 : rule1Cond a u g = false)
    (h2 : rule2Cond a u g = true) : classify a u g = outcome2 := by
  simp [classify, h1, h2]

/-- The rule engine on a row first matching rule 3. -/
theorem classify_rule3 {a u : ℤ} {g : RFloat} (h1 : rule1Cond a u g = false)
    (h2 : rule2Cond a u g = false) (h3 : rule3Cond a u g = true) :
    classify a u g = outcome3 := by
  simp [classify, h1, h2, h3]

/-- The rule engine on a row first matching rule 4. -/
theorem classify_rule4 {a u : ℤ} {g : RFloat} (h1 : rule1Cond a u g = false)
    (h2 : rule2Cond a u g = false) (h3 : rule3Cond a u g = false)
    (h4 : rule4Cond a u g = true) : classify a u g = outcome4 := by
  simp [classify, h1, h2, h3, h4]

/-- The rule engine on a row matching no rule. -/
theorem classify_default {a u : ℤ} {g : RFloat} (h1 : rule1Cond a u g = false)
    (h2 : rule2Cond a u g = false) (h3 : rule3Cond a u g = false)
    (h4 : rule4Cond a u g = false) : classify a u g = defaultOutcome := by
  simp [classify, h1, h2, h3, h4]


/-- Witness for C6: in a run where sku "B" appears only in the sales
dataset, the produced record has its sku in both datasets and is not "B". -/
theorem claim_C6_witness :
    ((∃ i, i ∈ [(⟨ "A", some (Cell.num 5), none⟩ : InvRow)] ∧ InvRow.sku i = "A") ∧
     (∃ s, s ∈ [(⟨ "A", Cell.str "$6", Cell.num 1⟩ : SalesRow),
        ⟨ "B", Cell.str "$6", Cell.num 1⟩] ∧ SalesRow.sku s = "A")) ∧
    ((⟨ "r", "A", "", 5, 1, some 6, some (201/50), "hold", "none", 0, "none",
      "Default hold – no strong inventory or margin signal", "t"⟩ : Recommendation).sku ≠ "B") := by
  have ho : classify 5 1 (some (201/50)) = defaultOutcome :=
    classify_default (by with_unfolding_all decide) (by with_unfolding_all decide)
      (by with_unfolding_all decide) (by with_unfolding_all decide)
  have hmk : mkRec (33/100) "r" (ts0 0)
      (⟨ "A", some (Cell.num 5), none⟩, ⟨ "A", Cell.str "$6", Cell.num 1⟩) (some 6)
      = Except.ok ⟨ "r", "A", "", 5, 1, some 6, some (201/50), "hold", "none", 0, "none",
        "Default hold – no strong inventory or margin signal", "t"⟩ :=
    (mkRec_eval 5 1 (some 6) (some (201/50)) defaultOutcome (some 6) (some (201/50)) 0
      (by with_unfolding_all decide) (by with_unfolding_all decide)
      (by with_unfolding_all decide) (by with_unfolding_all decide)
      ho (by with_unfolding_all decide)
      (by with_unfolding_all decide) roundQ3_outcomes.2.2.2.2).trans (by congr 1)
  have hcomp : compute_recommendations [⟨ "A", some (Cell.num 5), none⟩]
      [⟨ "A", Cell.str "$6", Cell.num 1⟩, ⟨ "B", Cell.str "$6", Cell.num 1⟩] (33/100) "r" ts0
      = Except.ok [⟨ "r", "A", "", 5, 1, some 6, some (201/50), "hold", "none", 0, "none",
        "Default hold – no strong inventory or margin signal", "t"⟩] := by
    rw [compute_recommendations,
      show mergeOnSku [(⟨ "A", some (Cell.num 5), none⟩ : InvRow)]
        [(⟨ "A", Cell.str "$6", Cell.num 1⟩ : SalesRow), ⟨ "B", Cell.str "$6", Cell.num 1⟩]
        = [(⟨ "A", some (Cell.num 5), none⟩, ⟨ "A", Cell.str "$6", Cell.num 1⟩)] from by
          with_unfolding_all decide,
      show parseSalesCol [(⟨ "A", some (Cell.num 5), none⟩, ⟨ "A", Cell.str "$6", Cell.num 1⟩)]
        = Except.ok [((⟨ "A", some (Cell.num 5), none⟩, ⟨ "A", Cell.str "$6", Cell.num 1⟩),
            some 6)] from by with_unfolding_all decide]
    show buildRecs (33/100) "r" ts0 0
        [((⟨ "A", some (Cell.num 5), none⟩, ⟨ "A", Cell.str "$6", Cell.num 1⟩), some 6)]
      = Except.ok [⟨ "r", "A", "", 5, 1, some 6, some (201/50), "hold", "none", 0, "none",
        "Default hold – no strong inventory or margin signal", "t"⟩]
    rw [buildRecs, hmk, buildRecs]
  have h := claim_C6 [⟨ "A", some (Cell.num 5), none⟩]
    [⟨ "A", Cell.str "$6", Cell.num 1⟩, ⟨ "B", Cell.str "$6", Cell.num 1⟩] (33/100) "r" ts0
    [⟨ "r", "A", "", 5, 1, some 6, some (201/50), "hold", "none", 0, "none",
      "Default hold – no strong inventory or margin signal", "t"⟩]
    ⟨ "r", "A", "", 5, 1, some 6, some (201/50), "hold", "none", 0, "none",
      "Default hold – no strong inventory or margin signal", "t"⟩ "B"
    hcomp (List.mem_singleton.mpr rfl)
  exact ⟨h.1, h.2 (Or.inl (by with_unfolding_all decide))⟩

/-- The loop body is deterministic in everything but the two timestamp
fields: its result, projected away from run_id and created_at, does not
depend on them. -/
theorem mkRec_core {cpf : ℚ} {r1 r2 c1 c2 : String} {p : InvRow × SalesRow} {v : RFloat} :
    (mkRec cpf r1 c1 p v).map coreFields = (mkRec cpf r2 c2 p v).map coreFields := by
  cases ha : availInt p.1.available with
  | error e => rw [mkRec, mkRec, ha]
  | ok a => rw [mkRec, mkRec, ha]; rfl

/-- The row loop is deterministic in everything but run_id and the
per-record timestamps. -/
theorem buildRecs_core (cpf : ℚ) (r1 r2 : String) (c1 c2 : ℕ → String) :
    ∀ (l : List ((InvRow × SalesRow) × RFloat)) (i j : ℕ),
      (buildRecs cpf r1 c1 i l).map (List.map coreFields)
        = (buildRecs cpf r2 c2 j l).map (List.map coreFields) := by
  intro l
  induction l with
  | nil => intro i j; rfl
  | cons x rest ih =>
    intro i j
    have hm : (mkRec cpf r1 (c1 i) x.1 x.2).map coreFields
        = (mkRec cpf r2 (c2 j) x.1 x.2).map coreFields := mkRec_core
    have ht := ih (i + 1) (j + 1)
    rw [buildRecs, buildRecs]
    cases h1 : mkRec cpf r1 (c1 i) x.1 x.2 with
    | error e =>
      cases h2 : mkRec cpf r2 (c2 j) x.1 x.2 with
      | error e2 =>
        rw [h1, h2] at hm
        simp only [Except.map] at hm
        cases hm
        rfl
      | ok rB =>
        rw [h1, h2] at hm
        simp only [Except.map] at hm
        cases hm
    | ok rA =>
      cases h2 : mkRec cpf r2 (c2 j) x.1 x.2 with
      | error e2 =>
        rw [h1, h2] at hm
        simp only [Except.map] at hm
        cases hm
      | ok rB =>
        rw [h1, h2] at hm
        simp only [Except.map, Except.ok.injEq] at hm
        cases h3 : buildRecs cpf r1 c1 (i + 1) rest with
        | error e3 =>
          cases h4 : buildRecs cpf r2 c2 (j + 1) rest with
          | error e4 =>
            rw [h3, h4] at ht
            simp only [Except.map] at ht
            cases ht
            rfl
          | ok t4 =>
            rw [h3, h4] at ht
            simp only [Except.map] at ht
            cases ht
        | ok t3 =>
          cases h4 : buildRecs cpf r2 c2 (j + 1) rest with
          | error e4 =>
            rw [h3, h4] at ht
            simp only [Except.map] at ht
            cases ht
          | ok t4 =>
            rw [h3, h4] at ht
            simp only [Except.map, Except.ok.injEq] at ht
            simp only [Except.map, Except.ok.injEq, List.map_cons, hm, ht]

/-- C7: the pipeline is deterministic up to timestamps: two runs on the
same inputs and cost factor agree on every recommendation field except
run_id and created_at (and fail identically when they fail). -/
theorem claim_C7 (inv : List InvRow) (sales : List SalesRow) (cpf : ℚ)
    (r1 r2 : String) (c1 c2 : ℕ → String) :
    (compute_recommendations inv sales cpf r1 c1).map (List.map coreFields)
      = (compute_recommendations inv sales cpf r2 c2).map (List.map coreFields) := by
  rw [compute_recommendations, compute_recommendations]
  cases h : parseSalesCol (mergeOnSku inv sales) with
  | error e => rfl
  | ok parsed => exact buildRecs_core cpf r1 r2 c1 c2 parsed 0 0

/-- C8: every error of the pipeline reaches the invocation boundary,
where an event carrying an httpMethod key gets the 500 gateway response
with the error text and an event without one gets the exception
re-raised unwrapped. -/
theorem claim_C8 (st : Stores) (now : String) (created : ℕ → String) (e : Event)
    (msg : String) (h : handlerRun st now created e = Except.error msg) :
    lambda_handler st now created e
      = if hasHttpMethodKey e then HandlerResult.gatewayErr 500 msg
        else HandlerResult.raised msg := by
  rw [lambda_handler, h]

/-- Witness for C8: the same failing payload is re-raised on a
method-less event and wrapped as a 500 response on a POST event. -/
theorem claim_C8_witness :
    lambda_handler emptyStores "n" ts0 ⟨ none, none, ⟨ none, none, none⟩⟩
      = HandlerResult.raised "TypeError: NoneType object is not subscriptable" ∧
    lambda_handler emptyStores "n" ts0 ⟨ some (some "POST"), none, ⟨ none, none, none⟩⟩
      = HandlerResult.gatewayErr 500 "TypeError: NoneType object is not subscriptable" :=
  ⟨ (claim_C8 emptyStores "n" ts0 ⟨ none, none, ⟨ none, none, none⟩⟩
      "TypeError: NoneType object is not subscriptable"
      (by with_unfolding_all decide)).trans (by with_unfolding_all decide),
    (claim_C8 emptyStores "n" ts0 ⟨ some (some "POST"), none, ⟨ none, none, none⟩⟩
      "TypeError: NoneType object is not subscriptable"
      (by with_unfolding_all decide)).trans (by with_unfolding_all decide)⟩

/-- C9: contrary to the documented direct-invocation contract, an event
with no method key and the payload at top level is routed into the body
branch: its body is None, subscripting raises TypeError, and the error
is re-raised; a method-less event succeeds (with the unwrapped response)
only when it carries a body, and the branch that uses the whole event as
the payload is reached only by events whose method is present and not
POST. -/
theorem claim_C9 :
    lambda_handler emptyStores "n" ts0
      ⟨ none, none, ⟨ some "inv.csv", some "sales.csv", none⟩⟩
      = HandlerResult.raised "TypeError: NoneType object is not subscriptable" ∧
    lambda_handler emptyStores "n" ts0
      ⟨ none, some (BodyVal.obj ⟨ some "inv.csv", some "sales.csv", none⟩), ⟨ none, none, none⟩⟩
      = HandlerResult.directOk ⟨ "n", 0, []⟩ ∧
    lambda_handler emptyStores "n" ts0
      ⟨ some (some "GET"), none, ⟨ some "inv.csv", some "sales.csv", none⟩⟩
      = HandlerResult.gatewayOk 200 ⟨ "n", 0, []⟩ := by
  refine ⟨?_, ?_, ?_⟩ <;> with_unfolding_all decide

/-- C10 counterexample: a joined row whose units cell is the non-integer
"2.5" but whose sales are zero produces current_price 0.0, which does
equal the sales divided by the reported units_ordered field (0/2), so
the claimed inequality fails there. -/
theorem claim_C10_cex :
    mkRec (33/100) "r" "t" (⟨ "A", some (Cell.num 50), none⟩, ⟨ "A", Cell.num 0, Cell.str "2.5"⟩)
      (some 0)
      = Except.ok ⟨ "r", "A", "", 50, 2, some 0, some 0, "hold", "none", 0, "none",
        "Default hold – no strong inventory or margin signal", "t"⟩ ∧
    unitsCoerce (Cell.str "2.5") = 5/2 ∧
    roundRF 2 (rdiv (some 0) (some ((2 : ℤ) : ℚ))) = some 0 := by
  refine ⟨?_, by with_unfolding_all decide, by with_unfolding_all decide⟩
  have ho : classify 50 (pyIntTrunc (5/2)) (some 0) = defaultOutcome :=
    classify_default (by with_unfolding_all decide) (by with_unfolding_all decide)
      (by with_unfolding_all decide) (by with_unfolding_all decide)
  exact (mkRec_eval 50 (5/2) (some 0) (some 0) defaultOutcome (some 0) (some 0) 0
    (by with_unfolding_all decide) (by with_unfolding_all decide)
    (by with_unfolding_all decide) (by with_unfolding_all decide)
    ho (by with_unfolding_all decide)
    (by with_unfolding_all decide) roundQ3_outcomes.2.2.2.2).trans (by congr 1; congr 1 <;> with_unfolding_all decide)

/-- C10 amended: for a joined row whose units cell parses to u, the
record reports the truncated integer int(u) and feeds it to every rule
condition, while the price metrics divide by the untruncated u
(safe_units guard applied), so current_price can differ from the sales
divided by the reported units_ordered — though not on every such row. -/
theorem claim_C10 (cpf : ℚ) (rid ca : String) (p : InvRow × SalesRow) (v : RFloat)
    (r : Recommendation) (u : ℚ)
    (hu : unitsCoerce p.2.unitsOrdered = u)
    (hmk : mkRec cpf rid ca p v = Except.ok r) :
    r.units_ordered = pyIntTrunc u ∧
    r.current_price = roundRF 2 (rdiv v (some (safeUnits u))) ∧
    ∃ a, availInt p.1.available = Except.ok a ∧
      r.strategy = (classify a (pyIntTrunc u) (grossProfitUnit (pricePerUnit v u) cpf)).strategy ∧
      r.price_action
        = (classify a (pyIntTrunc u) (grossProfitUnit (pricePerUnit v u) cpf)).price_action ∧
      r.price_change_pct
        = roundQ 3 (classify a (pyIntTrunc u) (grossProfitUnit (pricePerUnit v u) cpf)).price_change_pct ∧
      r.ad_action
        = (classify a (pyIntTrunc u) (grossProfitUnit (pricePerUnit v u) cpf)).ad_action := by
  obtain ⟨a, ha, hrec⟩ := mkRec_ok_inv hmk
  subst hrec
  subst hu
  exact ⟨rfl, rfl, a, ha, rfl, rfl, rfl, rfl⟩

/-- Witness for C10: the "2.5" units row with ten dollars of sales
reports units_ordered 2, computes current_price 4.0 from the
untruncated divisor 2.5, and 4.0 differs from 10/2 = 5.0. -/
theorem claim_C10_witness :
    (⟨ "r", "A", "", 50, 2, some 4, some (67/25), "stimulate_demand", "drop", -1/20, "none",
      "Moderate inventory, low sales; small price drop to test elasticity",
      "t"⟩ : Recommendation).units_ordered = pyIntTrunc (5/2) ∧
    (⟨ "r", "A", "", 50, 2, some 4, some (67/25), "stimulate_demand", "drop", -1/20, "none",
      "Moderate inventory, low sales; small price drop to test elasticity",
      "t"⟩ : Recommendation).current_price = roundRF 2 (rdiv (some 10) (some (safeUnits (5/2)))) ∧
    (⟨ "r", "A", "", 50, 2, some 4, some (67/25), "stimulate_demand", "drop", -1/20, "none",
      "Moderate inventory, low sales; small price drop to test elasticity",
      "t"⟩ : Recommendation).current_price = some 4 ∧
    roundRF 2 (rdiv (some 10) (some ((pyIntTrunc (5/2) : ℤ) : ℚ))) = some 5 := by
  have ho : classify 50 (pyIntTrunc (5/2)) (some (67/25)) = outcome2 :=
    classify_rule2 (by with_unfolding_all decide) (by with_unfolding_all decide)
  have hmk : mkRec (33/100) "r" "t"
      (⟨ "A", some (Cell.num 50), none⟩, ⟨ "A", Cell.num 0, Cell.str "2.5"⟩) (some 10)
      = Except.ok ⟨ "r", "A", "", 50, 2, some 4, some (67/25), "stimulate_demand", "drop",
        -1/20, "none", "Moderate inventory, low sales; small price drop to test elasticity",
        "t"⟩ :=
    (mkRec_eval 50 (5/2) (some 4) (some (67/25)) outcome2 (some 4) (some (67/25)) (-1/20)
      (by with_unfolding_all decide) (by with_unfolding_all decide)
      (by with_unfolding_all decide) (by with_unfolding_all decide)
      ho (by with_unfolding_all decide)
      (by with_unfolding_all decide) roundQ3_outcomes.2.1).trans (by congr 1; congr 1 <;> with_unfolding_all decide)
  have h := claim_C10 (33/100) "r" "t"
    (⟨ "A", some (Cell.num 50), none⟩, ⟨ "A", Cell.num 0, Cell.str "2.5"⟩) (some 10)
    ⟨ "r", "A", "", 50, 2, some 4, some (67/25), "stimulate_demand", "drop", -1/20, "none",
      "Moderate inventory, low sales; small price drop to test elasticity", "t"⟩ (5/2)
    (by with_unfolding_all decide) hmk
  exact ⟨h.1, h.2.1, by with_unfolding_all decide, by with_unfolding_all decide⟩
